import Mathlib

/-!
Verification of `scripts/eip3074.py` (EIP3074Protection repository).

The script configures the brownie network, defines `calcGasRatio` over a
`GasInfo` event payload, and a `main` entry point that deploys contracts,
sends two transactions, prints a gas ratio after each, and finally invokes
a protected call.  We embed the script shallowly: the event payload is a
Python-style dictionary (association list), exceptions (`KeyError`,
`ZeroDivisionError`) are an explicit error type, and the floating-point
arithmetic is modelled over `ℚ` (the spec's claims are stated up to
floating-point tolerance, and the scenario values are exactly
representable).
-/

namespace EIP3074

/-- Unhandled Python exceptions the script can raise. -/
inductive PyError
  | keyError (key : String)
  | zeroDivisionError
  deriving DecidableEq, Repr

/-- A brownie event payload such as `GasInfo`: a dictionary mapping field
names to integer values, modelled as an association list where the first
binding for a key wins. -/
abbrev GasInfo := List (String × Int)

/-- Python dictionary subscript `d[k]`: yields the stored value, or raises
`KeyError(k)` when the key is absent. -/
def dictGet (d : GasInfo) (k : String) : Except PyError Int :=
  match d with
  | [] => .error (.keyError k)
  | (k', v) :: rest => if k' = k then .ok v else dictGet rest k

/-- `calcGasRatio(gasinfo)` from the script:
reads `gasinfo['txgas']` and `gasinfo['gaslimit']` (each read may raise
`KeyError`), then returns `(float(gasleft)/float(gaslimit))*64.0`; the
division raises `ZeroDivisionError` when `gaslimit` is zero. -/
def calcGasRatio (gasinfo : GasInfo) : Except PyError ℚ :=
  match dictGet gasinfo "txgas" with
  | .error e => .error e
  | .ok gasleft =>
    match dictGet gasinfo "gaslimit" with
    | .error e => .error e
    | .ok gaslimit =>
      if gaslimit = 0 then .error .zeroDivisionError
      else .ok (((gasleft : ℚ) / (gaslimit : ℚ)) * 64)

/-- Dictionary subscript with the dictionary threaded through explicitly:
a Python subscript read returns the value and leaves the dictionary as it
was (no field is added, removed or modified by reading). -/
def dictGetSt (d : GasInfo) (k : String) : Except PyError (Int × GasInfo) :=
  match d with
  | [] => .error (.keyError k)
  | (k', v) :: rest =>
    if k' = k then .ok (v, (k', v) :: rest)
    else
      match dictGetSt rest k with
      | .error e => .error e
      | .ok (w, rest') => .ok (w, (k', v) :: rest')

/-- `calcGasRatio` in state-passing form: the event dictionary is threaded
through every operation the function performs on it, and returned next to
the result, so that the frame effect of the call on its argument is
visible in the type. -/
def calcGasRatioSt (gasinfo : GasInfo) : Except PyError (ℚ × GasInfo) :=
  match dictGetSt gasinfo "txgas" with
  | .error e => .error e
  | .ok (gasleft, gasinfo) =>
    match dictGetSt gasinfo "gaslimit" with
    | .error e => .error e
    | .ok (gaslimit, gasinfo) =>
      if gaslimit = 0 then .error .zeroDivisionError
      else .ok (((gasleft : ℚ) / (gaslimit : ℚ)) * 64, gasinfo)

/-- Gas limit configured at module load: `network.gas_limit(12000000)`. -/
def networkGasLimit : Int := 12000000

/-- Gas price configured at module load: `network.gas_price(0)`. -/
def networkGasPrice : Int := 0

/-- Observable steps of `main()`: contract deployments, contract method
calls, and printed `Gas ratio: <float>` lines. -/
inductive Action
  | deployOnlyEOAs
  | callDoSomething
  | callDoSomethingElse
  | deployEIP3074ProtectionTest
  | callTryCallingProtected
  | printGasRatio (r : ℚ)
  deriving DecidableEq, Repr

/-- Whether an action is a contract deployment. -/
def Action.isDeploy : Action → Bool
  | .deployOnlyEOAs => true
  | .deployEIP3074ProtectionTest => true
  | _ => false

/-- Whether an action is a printed `Gas ratio: <float>` line. -/
def Action.isPrintGasRatio : Action → Bool
  | .printGasRatio _ => true
  | _ => false

/-- Whether an action is the protected-call invocation
`protectionTest.tryCallingProtected(eoaContract)`. -/
def Action.isProtectedCall : Action → Bool
  | .callTryCallingProtected => true
  | _ => false

/-- `main()` from the script.  The `GasInfo` event payloads attached to the
two transactions on the `OnlyEOAs` contract are inputs from the network
(`g1` for `doSomething`, `g2` for `doSomethingElse`).  The result is the
trace of actions actually performed, paired with the first unhandled
exception when one aborts the script (`none` on a clean run):
deploy `OnlyEOAs`, call `doSomething`, print its gas ratio, call
`doSomethingElse`, print its gas ratio, deploy `EIP3074ProtectionTest`,
call `tryCallingProtected`. -/
def main (g1 g2 : GasInfo) : List Action × Option PyError :=
  match calcGasRatio g1 with
  | .error e => ([.deployOnlyEOAs, .callDoSomething], some e)
  | .ok r1 =>
    match calcGasRatio g2 with
    | .error e =>
      ([.deployOnlyEOAs, .callDoSomething, .printGasRatio r1,
        .callDoSomethingElse], some e)
    | .ok r2 =>
      ([.deployOnlyEOAs, .callDoSomething, .printGasRatio r1,
        .callDoSomethingElse, .printGasRatio r2,
        .deployEIP3074ProtectionTest, .callTryCallingProtected], none)

/-- C1: for every `gas_remaining ≥ 0` and `gas_limit > 0`, `calcGasRatio`
on a `GasInfo` record with `txgas = gas_remaining` and
`gaslimit = gas_limit` returns `(gas_remaining / gas_limit) * 64`. -/
theorem calcGasRatio_formula (r l : Int) (hr : 0 ≤ r) (hl : 0 < l) :
    calcGasRatio [("txgas", r), ("gaslimit", l)] =
      .ok (((r : ℚ) / (l : ℚ)) * 64) := by
  have hlz : l ≠ 0 := by omega
  simp [calcGasRatio, dictGet, hlz]

/-- Witness for C1 at `gas_remaining = 3`, `gas_limit = 12`. -/
theorem calcGasRatio_formula_witness :
    calcGasRatio [("txgas", 3), ("gaslimit", 12)] =
      .ok (((3 : ℚ) / (12 : ℚ)) * 64) :=
  calcGasRatio_formula 3 12 (by decide) (by decide)

/-- C2: for every `x`, `calcGasRatio` on a record with `txgas = x` and
`gaslimit = 0` raises a division error; it never returns a value. -/
theorem calcGasRatio_zero_gaslimit (x : Int) :
    calcGasRatio [("txgas", x), ("gaslimit", 0)] =
      .error .zeroDivisionError := by
  simp [calcGasRatio, dictGet]

/-- C7: `calcGasRatio` at `txgas = 6000000`, `gaslimit = 12000000`
returns exactly `32`. -/
theorem calcGasRatio_half_limit :
    calcGasRatio [("txgas", 6000000), ("gaslimit", 12000000)] =
      .ok 32 := by
  simp [calcGasRatio, dictGet]
  norm_num

/-- C8: `calcGasRatio` at `txgas = 12000000`, `gaslimit = 12000000`
returns exactly `64`. -/
theorem calcGasRatio_full_limit :
    calcGasRatio [("txgas", 12000000), ("gaslimit", 12000000)] =
      .ok 64 := by
  simp [calcGasRatio, dictGet]

/-- C5: a record lacking the `txgas` field, or one that has `txgas` but
lacks the `gaslimit` field, makes `calcGasRatio` fail with the
corresponding `KeyError`, propagated unhandled rather than caught or
replaced by a default value. -/
theorem calcGasRatio_missing_field (g : GasInfo) :
    (dictGet g "txgas" = .error (.keyError "txgas") →
      calcGasRatio g = .error (.keyError "txgas")) ∧
    (∀ v : Int, dictGet g "txgas" = .ok v →
      dictGet g "gaslimit" = .error (.keyError "gaslimit") →
      calcGasRatio g = .error (.keyError "gaslimit")) := by
  constructor
  · intro h
    unfold calcGasRatio
    rw [h]
  · intro v hv hl
    unfold calcGasRatio
    rw [hv, hl]

/-- Witness for C5: the empty record lacks `txgas`, and a record holding
only `txgas` lacks `gaslimit`. -/
theorem calcGasRatio_missing_field_witness :
    calcGasRatio [] = .error (.keyError "txgas") ∧
    calcGasRatio [("txgas", 5)] = .error (.keyError "gaslimit") :=
  ⟨(calcGasRatio_missing_field []).1 rfl,
   (calcGasRatio_missing_field [("txgas", 5)]).2 5 rfl rfl⟩

/-- C6: `calcGasRatio` consumes its argument read-only: whenever the
state-passing form returns, the record it hands back is the input record
unchanged (no field added, removed or modified). -/
theorem calcGasRatioSt_readonly (g : GasInfo) (r : ℚ) (g' : GasInfo)
    (h : calcGasRatioSt g = .ok (r, g')) : g' = g := by
  have key : ∀ (d : GasInfo) (k : String) (w : Int) (d' : GasInfo),
      dictGetSt d k = .ok (w, d') → d' = d := by
    intro d k
    induction d with
    | nil => intro w d' h'; simp [dictGetSt] at h'
    | cons p rest ih =>
      intro w d' h'
      obtain ⟨k', v⟩ := p
      by_cases hk : k' = k
      · subst hk
        simp [dictGetSt] at h'
        exact h'.2.symm
      · simp only [dictGetSt, if_neg hk] at h'
        cases hrest : dictGetSt rest k with
        | error e => rw [hrest] at h'; simp at h'
        | ok pr =>
          obtain ⟨w', rest'⟩ := pr
          rw [hrest] at h'
          simp at h'
          rw [← h'.2, ih w' rest' hrest]
  unfold calcGasRatioSt at h
  split at h
  · simp at h
  · rename_i gasleft g1 h1
    split at h
    · simp at h
    · rename_i gaslimit g2 h2
      split at h
      · simp at h
      · simp only [Except.ok.injEq, Prod.mk.injEq] at h
        rw [← h.2, key g1 "gaslimit" gaslimit g2 h2,
          key g "txgas" gasleft g1 h1]

/-- Witness for C6 at a concrete record. -/
theorem calcGasRatioSt_readonly_witness :
    ([("txgas", 6), ("gaslimit", 12)] : GasInfo) =
      [("txgas", 6), ("gaslimit", 12)] :=
  calcGasRatioSt_readonly [("txgas", 6), ("gaslimit", 12)] 32
    [("txgas", 6), ("gaslimit", 12)]
    (by simp [calcGasRatioSt, dictGetSt]; norm_num)

/-- C9: `calcGasRatio` is deterministic and depends only on the `txgas`
and `gaslimit` fields: two records whose lookups of those two fields
agree (whatever other fields either holds) give equal results. -/
theorem calcGasRatio_depends_only_on_fields (g1 g2 : GasInfo)
    (ht : dictGet g1 "txgas" = dictGet g2 "txgas")
    (hl : dictGet g1 "gaslimit" = dictGet g2 "gaslimit") :
    calcGasRatio g1 = calcGasRatio g2 := by
  unfold calcGasRatio
  rw [ht, hl]

/-- Witness for C9: an extra field on the second record does not change
the result. -/
theorem calcGasRatio_depends_only_on_fields_witness :
    calcGasRatio [("txgas", 1), ("gaslimit", 2)] =
      calcGasRatio [("blockhash", 99), ("txgas", 1), ("gaslimit", 2)] :=
  calcGasRatio_depends_only_on_fields
    [("txgas", 1), ("gaslimit", 2)]
    [("blockhash", 99), ("txgas", 1), ("gaslimit", 2)]
    (by simp [dictGet]) (by simp [dictGet])

/-- C10: no sign validation: for `gas_remaining < 0` and `gas_limit > 0`
the call does not fail but returns the negative value
`(gas_remaining / gas_limit) * 64`. -/
theorem calcGasRatio_negative (r l : Int) (hr : r < 0) (hl : 0 < l) :
    calcGasRatio [("txgas", r), ("gaslimit", l)] =
      .ok (((r : ℚ) / (l : ℚ)) * 64) ∧
    ((r : ℚ) / (l : ℚ)) * 64 < 0 := by
  have hlz : l ≠ 0 := by omega
  refine ⟨by simp [calcGasRatio, dictGet, hlz], ?_⟩
  have hrq : (r : ℚ) < 0 := by exact_mod_cast hr
  have hlq : (0 : ℚ) < (l : ℚ) := by exact_mod_cast hl
  exact mul_neg_of_neg_of_pos (div_neg_of_neg_of_pos hrq hlq) (by norm_num)

/-- Witness for C10 at `gas_remaining = -100`, `gas_limit = 200`. -/
theorem calcGasRatio_negative_witness :
    calcGasRatio [("txgas", -100), ("gaslimit", 200)] =
      .ok (((-100 : Int) : ℚ) / ((200 : Int) : ℚ) * 64) ∧
    ((-100 : Int) : ℚ) / ((200 : Int) : ℚ) * 64 < 0 :=
  calcGasRatio_negative (-100) 200 (by decide) (by decide)

/-- Equation for a clean run of `main`: when both gas-ratio computations
succeed, the script performs the full seven-step sequence and raises no
exception. -/
theorem main_ok_eq (g1 g2 : GasInfo) (r1 r2 : ℚ)
    (h1 : calcGasRatio g1 = .ok r1) (h2 : calcGasRatio g2 = .ok r2) :
    main g1 g2 =
      ([.deployOnlyEOAs, .callDoSomething, .printGasRatio r1,
        .callDoSomethingElse, .printGasRatio r2,
        .deployEIP3074ProtectionTest, .callTryCallingProtected], none) := by
  unfold main
  rw [h1, h2]

/-- C3: a run raising no exception deploys `OnlyEOAs`, invokes its two
methods with one printed gas-ratio line after each, and only then deploys
`EIP3074ProtectionTest` and invokes the protected call against it; in
particular exactly two printed gas-ratio lines precede the protected-call
invocation. -/
theorem main_two_ratio_lines_before_protected_call (g1 g2 : GasInfo)
    (h : (main g1 g2).2 = none) :
    (∃ r1 r2,
      (main g1 g2).1 =
        [Action.deployOnlyEOAs, Action.callDoSomething,
         Action.printGasRatio r1, Action.callDoSomethingElse,
         Action.printGasRatio r2, Action.deployEIP3074ProtectionTest,
         Action.callTryCallingProtected]) ∧
    (((main g1 g2).1.takeWhile fun a => !a.isProtectedCall).filter
        Action.isPrintGasRatio).length = 2 := by
  cases h1 : calcGasRatio g1 with
  | error e => unfold main at h; rw [h1] at h; simp at h
  | ok r1 =>
    cases h2 : calcGasRatio g2 with
    | error e => unfold main at h; rw [h1, h2] at h; simp at h
    | ok r2 =>
      rw [main_ok_eq g1 g2 r1 r2 h1 h2]
      refine ⟨⟨r1, r2, rfl⟩, ?_⟩
      simp [List.takeWhile, List.filter, Action.isProtectedCall,
        Action.isPrintGasRatio]

/-- Witness for C3 at a concrete pair of event records. -/
theorem main_two_ratio_lines_before_protected_call_witness :
    (∃ r1 r2,
      (main [("txgas", 6000000), ("gaslimit", 12000000)]
        [("txgas", 4000000), ("gaslimit", 12000000)]).1 =
        [Action.deployOnlyEOAs, Action.callDoSomething,
         Action.printGasRatio r1, Action.callDoSomethingElse,
         Action.printGasRatio r2, Action.deployEIP3074ProtectionTest,
         Action.callTryCallingProtected]) ∧
    (((main [("txgas", 6000000), ("gaslimit", 12000000)]
        [("txgas", 4000000), ("gaslimit", 12000000)]).1.takeWhile
          fun a => !a.isProtectedCall).filter
        Action.isPrintGasRatio).length = 2 :=
  main_two_ratio_lines_before_protected_call
    [("txgas", 6000000), ("gaslimit", 12000000)]
    [("txgas", 4000000), ("gaslimit", 12000000)] (by decide)

/-- C4 counterexample: on a concrete clean run, the trace contains exactly
two contract deployments, so the runner never holds three references to
deployed contract instances. -/
theorem main_not_three_contract_handles :
    ¬ (((main [("txgas", 6000000), ("gaslimit", 12000000)]
          [("txgas", 6000000), ("gaslimit", 12000000)]).1.filter
            Action.isDeploy).length = 3) := by
  decide

/-- C4 amended: during a run the runner holds two opaque references to
deployed contract instances (`OnlyEOAs` and `EIP3074ProtectionTest`); the
third contract the script imports, `EIP3074Protection`, is never
deployed. -/
theorem main_two_contract_handles (g1 g2 : GasInfo)
    (h : (main g1 g2).2 = none) :
    ((main g1 g2).1.filter Action.isDeploy).length = 2 := by
  cases h1 : calcGasRatio g1 with
  | error e => unfold main at h; rw [h1] at h; simp at h
  | ok r1 =>
    cases h2 : calcGasRatio g2 with
    | error e => unfold main at h; rw [h1, h2] at h; simp at h
    | ok r2 =>
      rw [main_ok_eq g1 g2 r1 r2 h1 h2]
      simp [List.filter, Action.isDeploy]

/-- Witness for the amended C4 at a concrete pair of event records. -/
theorem main_two_contract_handles_witness :
    ((main [("txgas", 2), ("gaslimit", 4)]
        [("txgas", 2), ("gaslimit", 4)]).1.filter
          Action.isDeploy).length = 2 :=
  main_two_contract_handles [("txgas", 2), ("gaslimit", 4)]
    [("txgas", 2), ("gaslimit", 4)] (by decide)

end EIP3074
